import Mathlib

/-!
Verification of the client-side generation request/response lifecycle and local
gallery cache of the ai-image-generator frontend (src/frontend/js/app.js,
src/frontend/js/ui.js, the API module and the CONFIG module).

The JavaScript sources are embedded shallowly:

* pure helpers become Lean functions with the same control flow;
* `localStorage` becomes an association list of keyed strings;
* the DOM side effects of a handler become an explicit list of `Action`s, and
  the mutable fields of the `App` object become an `AppState` record threaded
  through the handlers;
* the built-in `JSON.stringify` / `JSON.parse` pair is modelled by a
  character-level printer and parser for the exact serialization shape the
  application stores (an array of gallery entry objects whose field order is
  the insertion order of the object literals in `saveToGalleryStorage`).
  `JSON.parse` accepts more strings than this parser (whitespace, other key
  orders, arbitrary JSON values); no theorem below depends on those extra
  strings, and stored values outside the gallery format are modelled as parse
  failures, matching the code path where the save aborts in its catch block.
-/

namespace ImageGen

/-! ### Characters and decimal digits -/

def isDig (c : Char) : Bool := 48 ≤ c.toNat && c.toNat ≤ 57

def decChar (d : Nat) : Char := Char.ofNat (48 + d)

/-- Decimal digits of `n`, most significant first, computed with explicit fuel
so that the definition is structural and evaluates in the kernel. -/
def natDigitsAux : Nat → Nat → List Char
  | 0, _ => []
  | f + 1, n => if n < 10 then [decChar n] else natDigitsAux f (n / 10) ++ [decChar (n % 10)]

/-- The decimal representation `JSON.stringify` produces for a natural number. -/
def natDigitsL (n : Nat) : List Char := natDigitsAux (n + 1) n

/-- Numeric value of a run of decimal digit characters. -/
def digitsVal (ds : List Char) : Nat :=
  ds.foldl (fun a c => a * 10 + (c.toNat - 48)) 0

/-- Split a character list into its leading run of decimal digits and the rest. -/
def takeDigitsL : List Char → List Char × List Char
  | [] => ([], [])
  | c :: cs =>
    if isDig c then
      let p := takeDigitsL cs
      (c :: p.1, p.2)
    else ([], c :: cs)

/-- JavaScript `String.prototype.trim`: strip whitespace from both ends
(restricted to the ASCII whitespace the inputs at hand can contain). -/
def jsTrim (s : String) : String :=
  String.mk (((s.data.dropWhile Char.isWhitespace).reverse.dropWhile Char.isWhitespace).reverse)

/-- The head of the list, if any, is not a decimal digit. -/
def headNonDig : List Char → Bool
  | [] => true
  | c :: _ => !(isDig c)

/-- Parse a natural number written as a nonempty digit run. -/
def parseNatL (cs : List Char) : Option (Nat × List Char) :=
  let p := takeDigitsL cs
  if p.1 = [] then none else some (digitsVal p.1, p.2)

/-! ### JSON string escaping, as performed by `JSON.stringify` -/

def hexDigitChar (d : Nat) : Char :=
  if d < 10 then decChar d else Char.ofNat (97 + (d - 10))

/-- How `JSON.stringify` renders one character inside a string literal:
quote and backslash get two-character escapes, the common control characters
get their short escapes, the remaining control characters get `\u00XX`, and
every other character is emitted verbatim. -/
def escChar (c : Char) : List Char :=
  if c = '"' then ['\\', '"']
  else if c = '\\' then ['\\', '\\']
  else if c = Char.ofNat 8 then ['\\', 'b']
  else if c = '\t' then ['\\', 't']
  else if c = '\n' then ['\\', 'n']
  else if c = Char.ofNat 12 then ['\\', 'f']
  else if c = '\r' then ['\\', 'r']
  else if c.toNat < 32 then
    ['\\', 'u', '0', '0', hexDigitChar (c.toNat / 16), hexDigitChar (c.toNat % 16)]
  else [c]

/-- The character denoted by a short escape after a backslash (`JSON.parse`). -/
def unescChar (c : Char) : Option Char :=
  if c = '"' then some '"'
  else if c = '\\' then some '\\'
  else if c = '/' then some '/'
  else if c = 'b' then some (Char.ofNat 8)
  else if c = 'f' then some (Char.ofNat 12)
  else if c = 'n' then some '\n'
  else if c = 'r' then some '\r'
  else if c = 't' then some '\t'
  else none

def hexDigVal (c : Char) : Option Nat :=
  if 48 ≤ c.toNat ∧ c.toNat ≤ 57 then some (c.toNat - 48)
  else if 97 ≤ c.toNat ∧ c.toNat ≤ 102 then some (c.toNat - 87)
  else if 65 ≤ c.toNat ∧ c.toNat ≤ 70 then some (c.toNat - 55)
  else none

/-- Parse the body of a JSON string literal after its opening quote,
accumulating decoded characters in reverse. -/
def parseStrL (acc : List Char) : List Char → Option (String × List Char)
  | [] => none
  | c :: rest =>
    if c = '"' then some (String.mk acc.reverse, rest)
    else if c = '\\' then
      match rest with
      | [] => none
      | e :: rest2 =>
        if e = 'u' then
          match rest2 with
          | a :: b :: c2 :: d :: rest3 =>
            match hexDigVal a, hexDigVal b, hexDigVal c2, hexDigVal d with
            | some va, some vb, some vc, some vd =>
              parseStrL (Char.ofNat (((va * 16 + vb) * 16 + vc) * 16 + vd) :: acc) rest3
            | _, _, _, _ => none
          | _ => none
        else
          match unescChar e with
          | some ch => parseStrL (ch :: acc) rest2
          | none => none
    else parseStrL (c :: acc) rest

/-- Parse a complete JSON string literal, opening quote included. -/
def parseStringTok : List Char → Option (String × List Char)
  | [] => none
  | c :: rest => if c = '"' then parseStrL [] rest else none

/-- Expect a fixed literal character sequence and return the remainder. -/
def parseLit : List Char → List Char → Option (List Char)
  | [], cs => some cs
  | _ :: _, [] => none
  | l :: ls, c :: cs => if c = l then parseLit ls cs else none

/-! ### The gallery serialization shape

`saveToGalleryStorage` stores `JSON.stringify(gallery)` where `gallery` is an
array of objects `{image, metadata, timestamp}` built by `unshift`; the
metadata object carries the fields the frontend consumes (`ui.js` reads
`prompt`, `model_id`, `width`, `height`, `parameters.num_inference_steps` and
`timestamp`).  Numeric parameters are modelled as naturals; floating-point
formatting is outside the model.  Encoders take the remainder of the output as
an explicit continuation, which keeps them in the exact shape the parsing
lemmas consume. -/

def lbrace : Char := Char.ofNat 123
def rbrace : Char := Char.ofNat 125

/-- One generation parameter object, as echoed into the stored metadata. -/
structure GenParameters where
  num_inference_steps : Nat
deriving DecidableEq, Repr

/-- The metadata of one generation result, as consumed by the frontend. -/
structure Metadata where
  prompt : String
  model_id : String
  width : Nat
  height : Nat
  parameters : GenParameters
  timestamp : String
deriving DecidableEq, Repr

/-- One persisted gallery record, as built by `saveToGalleryStorage`. -/
structure GalleryEntry where
  image : String
  metadata : Metadata
  timestamp : String
deriving DecidableEq, Repr

/-- The characters of a JSON object key followed by its colon. -/
def keyL (k : String) : List Char := '"' :: k.data ++ ['"', ':']

def encStrC (s : String) (k : List Char) : List Char :=
  '"' :: (s.data.map escChar).flatten ++ ('"' :: k)

def encNatC (n : Nat) (k : List Char) : List Char := natDigitsL n ++ k

def encParamsC (p : GenParameters) (k : List Char) : List Char :=
  (lbrace :: keyL "num_inference_steps") ++ encNatC p.num_inference_steps (rbrace :: k)

def encMetaC (m : Metadata) (k : List Char) : List Char :=
  (lbrace :: keyL "prompt") ++
    encStrC m.prompt ((',' :: keyL "model_id") ++
      encStrC m.model_id ((',' :: keyL "width") ++
        encNatC m.width ((',' :: keyL "height") ++
          encNatC m.height ((',' :: keyL "parameters") ++
            encParamsC m.parameters ((',' :: keyL "timestamp") ++
              encStrC m.timestamp (rbrace :: k))))))

def encEntryC (e : GalleryEntry) (k : List Char) : List Char :=
  (lbrace :: keyL "image") ++
    encStrC e.image ((',' :: keyL "metadata") ++
      encMetaC e.metadata ((',' :: keyL "timestamp") ++
        encStrC e.timestamp (rbrace :: k)))

/-- The tail of a serialized array: either the closing bracket or a comma and
a further entry. -/
def encTailC : List GalleryEntry → List Char → List Char
  | [], k => ']' :: k
  | e :: es, k => ',' :: encEntryC e (encTailC es k)

def encGalleryC (g : List GalleryEntry) (k : List Char) : List Char :=
  match g with
  | [] => '[' :: ']' :: k
  | e :: es => '[' :: encEntryC e (encTailC es k)

def parseParamsObj (cs : List Char) : Option (GenParameters × List Char) :=
  match parseLit (lbrace :: keyL "num_inference_steps") cs with
  | none => none
  | some cs1 =>
    match parseNatL cs1 with
    | none => none
    | some (n, cs2) =>
      match parseLit [rbrace] cs2 with
      | none => none
      | some cs3 => some (⟨n⟩, cs3)

def parseMetaObj (cs : List Char) : Option (Metadata × List Char) :=
  match parseLit (lbrace :: keyL "prompt") cs with
  | none => none
  | some cs1 =>
  match parseStringTok cs1 with
  | none => none
  | some (pr, cs2) =>
  match parseLit (',' :: keyL "model_id") cs2 with
  | none => none
  | some cs3 =>
  match parseStringTok cs3 with
  | none => none
  | some (mid, cs4) =>
  match parseLit (',' :: keyL "width") cs4 with
  | none => none
  | some cs5 =>
  match parseNatL cs5 with
  | none => none
  | some (w, cs6) =>
  match parseLit (',' :: keyL "height") cs6 with
  | none => none
  | some cs7 =>
  match parseNatL cs7 with
  | none => none
  | some (h, cs8) =>
  match parseLit (',' :: keyL "parameters") cs8 with
  | none => none
  | some cs9 =>
  match parseParamsObj cs9 with
  | none => none
  | some (ps, cs10) =>
  match parseLit (',' :: keyL "timestamp") cs10 with
  | none => none
  | some cs11 =>
  match parseStringTok cs11 with
  | none => none
  | some (ts, cs12) =>
  match parseLit [rbrace] cs12 with
  | none => none
  | some cs13 => some (⟨pr, mid, w, h, ps, ts⟩, cs13)

def parseEntryObj (cs : List Char) : Option (GalleryEntry × List Char) :=
  match parseLit (lbrace :: keyL "image") cs with
  | none => none
  | some cs1 =>
  match parseStringTok cs1 with
  | none => none
  | some (img, cs2) =>
  match parseLit (',' :: keyL "metadata") cs2 with
  | none => none
  | some cs3 =>
  match parseMetaObj cs3 with
  | none => none
  | some (md, cs4) =>
  match parseLit (',' :: keyL "timestamp") cs4 with
  | none => none
  | some cs5 =>
  match parseStringTok cs5 with
  | none => none
  | some (ts, cs6) =>
  match parseLit [rbrace] cs6 with
  | none => none
  | some cs7 => some (⟨img, md, ts⟩, cs7)

/-- Parse the tail of the serialized array; the fuel bounds the number of
entries and makes the recursion structural. -/
def parseTail : Nat → List Char → Option (List GalleryEntry × List Char)
  | 0, _ => none
  | _ + 1, [] => none
  | fuel + 1, c :: rest =>
    if c = ']' then some ([], rest)
    else if c = ',' then
      match parseEntryObj rest with
      | none => none
      | some (e, cs2) =>
        match parseTail fuel cs2 with
        | none => none
        | some (es, cs3) => some (e :: es, cs3)
    else none

def parseGalleryL (cs : List Char) : Option (List GalleryEntry × List Char) :=
  match cs with
  | [] => none
  | c :: rest =>
    if c = '[' then
      match rest with
      | [] => none
      | c2 :: rest2 =>
        if c2 = ']' then some ([], rest2)
        else
          match parseEntryObj rest with
          | none => none
          | some (e, cs2) =>
            match parseTail (cs2.length + 1) cs2 with
            | none => none
            | some (es, cs3) => some (e :: es, cs3)
    else none

/-- The serialization `JSON.stringify` produces for the gallery collection. -/
def stringifyGallery (g : List GalleryEntry) : String := String.mk (encGalleryC g [])

/-- `JSON.parse` of a stored gallery string, demanding the full input be a
single serialized gallery collection. -/
def parseGallery (s : String) : Option (List GalleryEntry) :=
  match parseGalleryL s.data with
  | some (g, []) => some g
  | _ => none

/-! ### Well-formedness: strings free of control characters

For such strings, `escChar` only ever uses the quote and backslash escapes,
and the codec round-trips. -/

def wfString (s : String) : Bool := s.data.all fun c => 32 ≤ c.toNat

def wfMeta (m : Metadata) : Bool :=
  wfString m.prompt && wfString m.model_id && wfString m.timestamp

def wfEntry (e : GalleryEntry) : Bool :=
  wfString e.image && wfMeta e.metadata && wfString e.timestamp

/-! ### localStorage and the configuration constants (config module) -/

def CONFIG.UI.MAX_GALLERY_ITEMS : Nat := 10

def CONFIG.STORAGE.GALLERY : String := "hf-generator-gallery"

/-- `localStorage`, modelled as an association list; a later `setItem` for the
same key shadows earlier entries. -/
abbrev Store : Type := List (String × String)

def getItem : Store → String → Option String
  | [], _ => none
  | (k', v) :: st, k => if k = k' then some v else getItem st k

def setItem (st : Store) (k v : String) : Store := (k, v) :: st

/-- The read-and-parse step shared by `saveToGalleryStorage` (the expression
`galleryJson ? JSON.parse(galleryJson) : []`) and, with its early return, by
`loadGalleryFromStorage`: a missing or empty record is an empty collection,
and `none` models `JSON.parse` (or the subsequent array operations) throwing. -/
def storedGallery (store : Store) : Option (List GalleryEntry) :=
  match getItem store CONFIG.STORAGE.GALLERY with
  | none => some []
  | some s => if s = "" then some [] else parseGallery s

/-- `App.saveToGalleryStorage`: read the stored collection, `unshift` the new
entry, truncate past the bound, write the serialization back.  A throw inside
the `try` block is caught and logged, leaving the store unchanged. -/
def App.saveToGalleryStorage (store : Store) (image : String) (metadata : Metadata)
    (now : String) : Store :=
  match storedGallery store with
  | none => store
  | some g0 =>
    let g1 : List GalleryEntry := { image := image, metadata := metadata, timestamp := now } :: g0
    let g2 := if g1.length > CONFIG.UI.MAX_GALLERY_ITEMS
              then g1.take CONFIG.UI.MAX_GALLERY_ITEMS else g1
    setItem store CONFIG.STORAGE.GALLERY (stringifyGallery g2)

/-- `App.loadGalleryFromStorage`: the ordered `(image, metadata)` pairs passed
to `UI.addToGallery`; a missing record or a parse failure adds nothing. -/
def App.loadGalleryFromStorage (store : Store) : List (String × Metadata) :=
  match getItem store CONFIG.STORAGE.GALLERY with
  | none => []
  | some s =>
    if s = "" then []
    else
      match parseGallery s with
      | none => []
      | some g => g.map fun e => (e.image, e.metadata)

/-- The storage contents after `n` successful generations whose entries are
`gen 1, …, gen n`: each save conses the newest entry and truncates to the
bound of 10. -/
def galleryWindow (gen : Nat → GalleryEntry) : Nat → List GalleryEntry
  | 0 => []
  | n + 1 => (gen (n + 1) :: galleryWindow gen n).take CONFIG.UI.MAX_GALLERY_ITEMS

/-- Run `n` successful generations against the store: generation `i` persists
entry `gen i`. -/
def runSaves (gen : Nat → GalleryEntry) (st : Store) : Nat → Store
  | 0 => st
  | n + 1 =>
    App.saveToGalleryStorage (runSaves gen st n)
      (gen (n + 1)).image (gen (n + 1)).metadata (gen (n + 1)).timestamp

/-! ### The generation request and the form (app module) -/

/-- The result of `parseInt` on free-form text: a number or `NaN`.  The
hexadecimal prefix form is not modelled. -/
inductive JsIntResult where
  | nan : JsIntResult
  | val : Int → JsIntResult
deriving DecidableEq, Repr

def jsParseInt (s : String) : JsIntResult :=
  let cs := s.data.dropWhile fun c => c.isWhitespace
  let signed : Int × List Char :=
    match cs with
    | '-' :: r => (-1, r)
    | '+' :: r => (1, r)
    | _ => (1, cs)
  let ds := signed.2.takeWhile isDig
  if ds = [] then .nan else .val (signed.1 * (digitsVal ds : Int))

/-- The form fields read by `getGenerationParameters`.  The sliders and the
size radio group only ever hold decimal numerals, so `parseInt` / `parseFloat`
of those fields are modelled as the numeric values themselves (the guidance
value as an exact rational in place of a float); the free-text seed field goes
through `jsParseInt`. -/
structure FormState where
  prompt : String
  modelId : String
  size : Nat
  steps : Nat
  guidance : Rat
  negativePrompt : String
  seed : String
deriving DecidableEq, Repr

/-- The request object posted to the relay (`params` in the app module). -/
structure GenerationRequest where
  prompt : String
  model_id : String
  width : Nat
  height : Nat
  num_inference_steps : Nat
  guidance_scale : Rat
  negative_prompt : Option String := none
  seed : Option JsIntResult := none
deriving DecidableEq, Repr

/-- `App.getGenerationParameters`: build the request from the form, adding the
optional keys only when their inputs are truthy and nonblank after trimming. -/
def App.getGenerationParameters (f : FormState) : GenerationRequest :=
  let params : GenerationRequest :=
    { prompt := f.prompt, model_id := f.modelId, width := f.size, height := f.size,
      num_inference_steps := f.steps, guidance_scale := f.guidance }
  let params :=
    if f.negativePrompt ≠ "" ∧ 0 < (jsTrim f.negativePrompt).length then
      { params with negative_prompt := some f.negativePrompt }
    else params
  if f.seed ≠ "" ∧ 0 < (jsTrim f.seed).length then
    { params with seed := some (jsParseInt f.seed) }
  else params

/-! ### The generation handler and its observable actions -/

/-- The result object the handler consumes on success (`result.image`,
`result.metadata`). -/
structure GenerationResult where
  image : String
  metadata : Metadata
deriving DecidableEq, Repr

/-- One observable side effect of a handler: a UI call or the relay call. -/
inductive Action where
  | showError : String → Action
  | showSuccess : String → Action
  | updateStatus : String → Bool → Action
  | setGenerateButtonEnabled : Bool → Action
  | showLoading : Action
  | hideLoading : Action
  | displayImage : String → Action
  | updateMetadata : Metadata → Action
  | addToGalleryUI : String → Metadata → Action
  | apiGenerate : GenerationRequest → Action
deriving DecidableEq, Repr

def isApiCall : Action → Bool
  | .apiGenerate _ => true
  | _ => false

/-- The mutable fields of the `App` object, plus the store it writes. -/
structure AppState where
  currentImage : Option String := none
  currentMetadata : Option Metadata := none
  store : Store := []
deriving DecidableEq, Repr

/-- `App.handleGenerate`, with the awaited `API.generateImage` call abstracted
as its outcome function: either the result object or the message of the thrown
error.  Returns the updated app state and the ordered side effects. -/
def App.handleGenerate (st : AppState) (f : FormState)
    (api : GenerationRequest → Except String GenerationResult) (now : String) :
    AppState × List Action :=
  let params := App.getGenerationParameters f
  if params.prompt = "" ∨ (jsTrim params.prompt).length = 0 then
    (st, [Action.showError "Please enter a prompt"])
  else
    let pre : List Action :=
      [Action.updateStatus "Generating" true, Action.setGenerateButtonEnabled false,
       Action.showLoading, Action.apiGenerate params]
    match api params with
    | .error msg =>
      (st,
       pre ++ [Action.hideLoading, Action.updateStatus "Error" false, Action.showError msg,
               Action.setGenerateButtonEnabled true])
    | .ok res =>
      ({ currentImage := some res.image, currentMetadata := some res.metadata,
         store := App.saveToGalleryStorage st.store res.image res.metadata now },
       pre ++ [Action.hideLoading, Action.displayImage res.image,
               Action.updateMetadata res.metadata, Action.addToGalleryUI res.image res.metadata,
               Action.updateStatus "Ready" false, Action.showSuccess "Image generated successfully!",
               Action.setGenerateButtonEnabled true])

/-! ### Event wiring: the generate and regenerate buttons

`setupEventListeners` wires both the generate button and the regenerate button
to `handleGenerate`.  During a generation the code disables only the generate
button (`UI.setGenerateButtonEnabled`); a disabled button fires no click
events, while the regenerate button stays clickable.  `startGenerate` is the
synchronous prefix of `handleGenerate` up to and including dispatching the
relay call, and `inFlight` counts dispatched calls not yet settled. -/

structure Session where
  app : AppState
  generateEnabled : Bool
  inFlight : Nat
deriving DecidableEq, Repr

inductive Event where
  | clickGenerate : Event
  | clickRegenerate : Event
deriving DecidableEq, Repr

def startGenerate (s : Session) (f : FormState) : Session × List Action :=
  let params := App.getGenerationParameters f
  if params.prompt = "" ∨ (jsTrim params.prompt).length = 0 then
    (s, [Action.showError "Please enter a prompt"])
  else
    ({ s with generateEnabled := false, inFlight := s.inFlight + 1 },
     [Action.updateStatus "Generating" true, Action.setGenerateButtonEnabled false,
      Action.showLoading, Action.apiGenerate params])

def dispatchClick (s : Session) (f : FormState) : Event → Session × List Action
  | .clickGenerate => if s.generateEnabled then startGenerate s f else (s, [])
  | .clickRegenerate => startGenerate s f

def runEvents (f : FormState) : Session → List Event → Session × List Action
  | s, [] => (s, [])
  | s, ev :: evs =>
    let p := dispatchClick s f ev
    let q := runEvents f p.1 evs
    (q.1, p.2 ++ q.2)

/-! ### The API module

Each function is abstracted over the network outcome of its `fetch`: a
rejected promise with a message, or a response carrying `ok`, `status`,
`statusText` and the result of `response.json()` (whose failure is a thrown
parse error).  The `try` body computes a value or throws; the `catch` block
rethrows with a wrapping message. -/

inductive HttpOutcome (β : Type) where
  | netError : String → HttpOutcome β
  | response : Bool → Nat → String → Except String β → HttpOutcome β

/-- A catalog entry returned by the models endpoint. -/
structure DefaultParams where
  steps : Nat
  guidance : Rat
deriving DecidableEq, Repr

structure ModelDescriptor where
  id : String
  name : String
  description : String
  estimated_time : String
  default_params : DefaultParams
deriving DecidableEq, Repr

structure ModelsBody where
  success : Bool
  error : Option String := none
  models : List ModelDescriptor
deriving DecidableEq, Repr

structure GenerateBody where
  success : Bool
  error : Option String := none
  image : String
  metadata : Metadata
deriving DecidableEq, Repr

structure HealthBody where
  status : String
deriving DecidableEq, Repr

/-- `data.error || fallback`: `undefined`, `null` and the empty string are
falsy. -/
def jsOr (o : Option String) (fallback : String) : String :=
  match o with
  | none => fallback
  | some s => if s = "" then fallback else s

def httpThrowMsg (status : Nat) (statusText : String) : String :=
  "HTTP " ++ toString status ++ ": " ++ statusText

def API.fetchModels (o : HttpOutcome ModelsBody) : Except String (List ModelDescriptor) :=
  let inner : Except String (List ModelDescriptor) :=
    match o with
    | .netError m => .error m
    | .response ok status statusText body =>
      if !ok then .error (httpThrowMsg status statusText)
      else
        match body with
        | .error m => .error m
        | .ok data =>
          if !data.success then .error (jsOr data.error "Failed to fetch models")
          else .ok data.models
  match inner with
  | .ok v => .ok v
  | .error m => .error ("Failed to load models: " ++ m)

def API.generateImage (o : HttpOutcome GenerateBody) : Except String GenerateBody :=
  let inner : Except String GenerateBody :=
    match o with
    | .netError m => .error m
    | .response ok status statusText body =>
      if !ok then .error (httpThrowMsg status statusText)
      else
        match body with
        | .error m => .error m
        | .ok data =>
          if !data.success then .error (jsOr data.error "Image generation failed")
          else .ok data
  match inner with
  | .ok v => .ok v
  | .error m => .error ("Generation failed: " ++ m)

def API.checkHealth (o : HttpOutcome HealthBody) : Except String HealthBody :=
  let inner : Except String HealthBody :=
    match o with
    | .netError m => .error m
    | .response ok status statusText body =>
      if !ok then .error (httpThrowMsg status statusText)
      else
        match body with
        | .error m => .error m
        | .ok data => .ok data
  match inner with
  | .ok v => .ok v
  | .error m => .error ("API unavailable: " ++ m)

/-- The outcome is a delivered, parseable response with `ok` set whose body
satisfies `p`. -/
def httpSuccess {β : Type} (o : HttpOutcome β) (p : β → Prop) : Prop :=
  ∃ status statusText body,
    o = HttpOutcome.response true status statusText (Except.ok body) ∧ p body

/-- The message is the given wrapping text followed by an underlying cause. -/
def wrapsMsg (pfx m : String) : Prop := ∃ cause, m = pfx ++ cause

/-! ### The Relay Service (spec-modelled) -/

inductive RelayError where
  | ValidationError : RelayError
  | UpstreamError : RelayError
  | TimeoutError : RelayError
deriving DecidableEq, Repr

/-- The size catalog and model catalog the relay validates against. -/
structure RelayConfig where
  supportedSizes : List Nat
  knownModels : List String
deriving DecidableEq, Repr

/-- Modelled from the spec: the Relay Service backend is not among the
frontend sources; per the spec its validation rules are enforced before any
upstream call — prompt non-empty after trimming, width and height in the
supported enumerated sizes, steps within 4 to 50, guidance within 1 to 20,
and a known model id, any violation being a `ValidationError`. -/
def relayValidate (cfg : RelayConfig) (r : GenerationRequest) : Option RelayError :=
  if jsTrim r.prompt = "" then some .ValidationError
  else if r.width ∉ cfg.supportedSizes ∨ r.height ∉ cfg.supportedSizes then
    some .ValidationError
  else if r.num_inference_steps < 4 ∨ 50 < r.num_inference_steps then some .ValidationError
  else if r.guidance_scale < 1 ∨ 20 < r.guidance_scale then some .ValidationError
  else if r.model_id ∉ cfg.knownModels then some .ValidationError
  else none

/-- Modelled from the spec: `generate` validates, and only on success performs
the single upstream call, whose outcome is abstracted; the returned list is
the sequence of upstream calls performed. -/
def relayGenerate (cfg : RelayConfig) (r : GenerationRequest)
    (upstream : Except RelayError GenerationResult) :
    Except RelayError GenerationResult × List GenerationRequest :=
  match relayValidate cfg r with
  | some e => (.error e, [])
  | none => (upstream, [r])

/-! ### Start-up (`App.init`) and gallery selection (`UI.addToGallery`) -/

/-- The calls `App.init` performs, in order, abstracted over the outcome of
the awaited model load; a failure is caught, shown and reflected in the
status. -/
inductive InitStep where
  | loadTheme : InitStep
  | setupEventListeners : InitStep
  | loadModels : InitStep
  | updateStatus : String → InitStep
  | showInitError : String → InitStep
  | loadGallery : InitStep
deriving DecidableEq, Repr

def App.initSteps (modelsOutcome : Except String (List ModelDescriptor)) : List InitStep :=
  [InitStep.loadTheme, InitStep.setupEventListeners, InitStep.loadModels] ++
    match modelsOutcome with
    | .ok _ => [InitStep.updateStatus "Ready"]
    | .error m =>
      [InitStep.showInitError ("Failed to initialize: " ++ m), InitStep.updateStatus "Error"]

/-- The image and metadata currently shown in the main view. -/
structure UIView where
  displayedImage : Option String := none
  displayedMetadata : Option Metadata := none
deriving DecidableEq, Repr

/-- The click listener `UI.addToGallery` attaches to a gallery thumbnail: it
calls `UI.displayImage` and `UI.updateMetadata` with the entry payload and
nothing else — the app state and the gallery collection are untouched. -/
def galleryItemClick (st : AppState) (_view : UIView) (g : List (String × Metadata))
    (img : String) (md : Metadata) :
    AppState × UIView × List (String × Metadata) × List Action :=
  (st, { displayedImage := some img, displayedMetadata := some md }, g,
   [Action.displayImage img, Action.updateMetadata md])

/-! ### Concrete sample values, used to instantiate the theorems below -/

def mdSample : Metadata :=
  { prompt := "a red balloon", model_id := "m1", width := 512, height := 512,
    parameters := ⟨30⟩, timestamp := "2024-01-01T00:00:00.000Z" }

def entrySample : GalleryEntry :=
  { image := "QUJDRA==", metadata := mdSample, timestamp := "2024-01-01T00:00:01.000Z" }

/-- Entry of generation `i`: distinct images, so the generations are
distinguishable. -/
def genSample (i : Nat) : GalleryEntry :=
  { image := String.mk (natDigitsL i), metadata := mdSample, timestamp := "t" }

def formValid : FormState :=
  { prompt := "a red balloon", modelId := "m1", size := 512, steps := 30,
    guidance := 8, negativePrompt := "", seed := "" }

def formBlankPrompt : FormState :=
  { prompt := "   ", modelId := "m1", size := 512, steps := 30,
    guidance := 8, negativePrompt := " ", seed := "" }

def reqSample : GenerationRequest :=
  { prompt := "a red balloon", model_id := "m1", width := 512, height := 512,
    num_inference_steps := 30, guidance_scale := 8 }

def reqSteps100 : GenerationRequest :=
  { prompt := "a red balloon", model_id := "m1", width := 512, height := 512,
    num_inference_steps := 100, guidance_scale := 8 }

def cfgSample : RelayConfig :=
  { supportedSizes := [512, 768, 1024], knownModels := ["m1"] }

/-- A relay stub that fails every call, as a stub returning HTTP 500 would. -/
def apiStubErr : GenerationRequest → Except String GenerationResult :=
  fun _ => .error "Generation failed: HTTP 500: Internal Server Error"

def stOld : AppState :=
  { currentImage := some "old", currentMetadata := some mdSample, store := [] }

def sessionIdle : Session := { app := {}, generateEnabled := true, inFlight := 0 }

/-- A session in the middle of a generation: one call outstanding, the
generate button disabled. -/
def sessionBusy : Session := { app := {}, generateEnabled := false, inFlight := 1 }

def modelsBodyOk : ModelsBody := { success := true, models := [] }

def oModelsOk : HttpOutcome ModelsBody := .response true 200 "OK" (.ok modelsBodyOk)

/-! ## Lemmas about the decimal codec -/

theorem natDigitsAux_stable (n : Nat) : ∀ f g : Nat, n < f → n < g →
    natDigitsAux f n = natDigitsAux g n := by
  induction n using Nat.strong_induction_on with
  | _ n ih =>
    intro f g hf hg
    match f, g with
    | f + 1, g + 1 =>
      by_cases h10 : n < 10
      · simp [natDigitsAux, h10]
      · have hdiv : n / 10 < n := Nat.div_lt_self (by omega) (by omega)
        simp only [natDigitsAux, if_neg h10]
        rw [ih (n / 10) hdiv f g (by omega) (by omega)]

theorem natDigitsL_unfold (n : Nat) :
    natDigitsL n = if n < 10 then [decChar n] else natDigitsL (n / 10) ++ [decChar (n % 10)] := by
  have h1 : natDigitsL n =
      if n < 10 then [decChar n] else natDigitsAux n (n / 10) ++ [decChar (n % 10)] := rfl
  by_cases h10 : n < 10
  · rw [h1, if_pos h10, if_pos h10]
  · have hdiv : n / 10 < n := Nat.div_lt_self (by omega) (by omega)
    rw [h1, if_neg h10, if_neg h10,
      natDigitsAux_stable (n / 10) n (n / 10 + 1) hdiv (by omega)]
    rfl

theorem decChar_isDig {d : Nat} (h : d < 10) : isDig (decChar d) = true := by
  interval_cases d <;> decide

theorem decChar_toNat {d : Nat} (h : d < 10) : (decChar d).toNat = 48 + d := by
  interval_cases d <;> decide

theorem natDigitsL_ne_nil (n : Nat) : natDigitsL n ≠ [] := by
  rw [natDigitsL_unfold]
  by_cases h10 : n < 10 <;> simp [h10]

theorem natDigitsL_all_dig (n : Nat) : ∀ c ∈ natDigitsL n, isDig c = true := by
  induction n using Nat.strong_induction_on with
  | _ n ih =>
    rw [natDigitsL_unfold]
    by_cases h10 : n < 10
    · simp only [if_pos h10, List.mem_singleton]
      intro c hc
      subst hc
      exact decChar_isDig h10
    · have hdiv : n / 10 < n := Nat.div_lt_self (by omega) (by omega)
      simp only [if_neg h10, List.mem_append, List.mem_singleton]
      intro c hc
      rcases hc with hc | hc
      · exact ih (n / 10) hdiv c hc
      · subst hc
        exact decChar_isDig (Nat.mod_lt _ (by omega))

theorem digitsVal_snoc (ds : List Char) (c : Char) :
    digitsVal (ds ++ [c]) = digitsVal ds * 10 + (c.toNat - 48) := by
  simp [digitsVal, List.foldl_append]

theorem digitsVal_natDigitsL (n : Nat) : digitsVal (natDigitsL n) = n := by
  induction n using Nat.strong_induction_on with
  | _ n ih =>
    rw [natDigitsL_unfold]
    by_cases h10 : n < 10
    · simp only [if_pos h10]
      have : digitsVal [decChar n] = (decChar n).toNat - 48 := by simp [digitsVal]
      rw [this, decChar_toNat h10]
      omega
    · have hdiv : n / 10 < n := Nat.div_lt_self (by omega) (by omega)
      simp only [if_neg h10]
      rw [digitsVal_snoc, ih (n / 10) hdiv, decChar_toNat (Nat.mod_lt _ (by omega))]
      omega

theorem takeDigitsL_nondig {cs : List Char} (h : headNonDig cs = true) :
    takeDigitsL cs = ([], cs) := by
  match cs with
  | [] => rfl
  | c :: t =>
    simp only [headNonDig, Bool.not_eq_true'] at h
    simp [takeDigitsL, h]

theorem takeDigitsL_run {ds rest : List Char} (hds : ∀ c ∈ ds, isDig c = true)
    (hrest : headNonDig rest = true) : takeDigitsL (ds ++ rest) = (ds, rest) := by
  induction ds with
  | nil => simpa using takeDigitsL_nondig hrest
  | cons c t ih =>
    have hc : isDig c = true := hds c (by simp)
    have ht := ih fun x hx => hds x (by simp [hx])
    simp [takeDigitsL, hc, ht]

theorem parseNatL_enc (n : Nat) {k : List Char} (hk : headNonDig k = true) :
    parseNatL (encNatC n k) = some (n, k) := by
  simp only [parseNatL, encNatC, takeDigitsL_run (natDigitsL_all_dig n) hk]
  simp [natDigitsL_ne_nil, digitsVal_natDigitsL]

/-! ## Lemmas about the string codec -/

theorem parseStrL_escChar {c : Char} (h : 32 ≤ c.toNat) (acc rest : List Char) :
    parseStrL acc (escChar c ++ rest) = parseStrL (c :: acc) rest := by
  by_cases hq : c = '"'
  · subst hq
    have he : escChar '"' = ['\\', '"'] := by decide
    rw [he]
    rw [parseStrL.eq_def]
    simp [unescChar]
  · by_cases hb : c = '\\'
    · subst hb
      have he : escChar '\\' = ['\\', '\\'] := by decide
      rw [he]
      rw [parseStrL.eq_def]
      simp [unescChar]
    · have h8 : c ≠ Char.ofNat 8 := by intro e; subst e; revert h; decide
      have ht : c ≠ '\t' := by intro e; subst e; revert h; decide
      have hn : c ≠ '\n' := by intro e; subst e; revert h; decide
      have hf : c ≠ Char.ofNat 12 := by intro e; subst e; revert h; decide
      have hr : c ≠ '\r' := by intro e; subst e; revert h; decide
      have h32 : ¬c.toNat < 32 := by omega
      have he : escChar c = [c] := by
        simp [escChar, hq, hb, h8, ht, hn, hf, hr, h32]
      rw [he]
      show parseStrL acc (c :: rest) = _
      rw [parseStrL.eq_def]
      simp [hq, hb]

theorem parseStrL_flatten {l : List Char} (hl : ∀ c ∈ l, 32 ≤ c.toNat) :
    ∀ acc k, parseStrL acc ((l.map escChar).flatten ++ ('"' :: k)) =
      some (String.mk (acc.reverse ++ l), k) := by
  induction l with
  | nil =>
    intro acc k
    rw [List.map_nil, List.flatten_nil, List.nil_append, parseStrL.eq_def]
    simp
  | cons c t ih =>
    intro acc k
    have hc : 32 ≤ c.toNat := hl c (by simp)
    have ht : ∀ x ∈ t, 32 ≤ x.toNat := fun x hx => hl x (by simp [hx])
    simp only [List.map_cons, List.flatten_cons, List.append_assoc]
    rw [parseStrL_escChar hc, ih ht (c :: acc) k]
    simp [List.reverse_cons, List.append_assoc]

theorem parseStringTok_enc {s : String} (hs : wfString s = true) (k : List Char) :
    parseStringTok (encStrC s k) = some (s, k) := by
  have hl : ∀ c ∈ s.data, 32 ≤ c.toNat := by
    intro c hc
    have := List.all_eq_true.mp hs c hc
    simpa using this
  show parseStringTok ('"' :: ((s.data.map escChar).flatten ++ ('"' :: k))) = _
  simp only [parseStringTok, if_pos rfl]
  rw [parseStrL_flatten hl [] k]
  obtain ⟨d⟩ := s
  rfl

theorem parseLit_pre : ∀ lit rest : List Char, parseLit lit (lit ++ rest) = some rest := by
  intro lit
  induction lit with
  | nil => intro rest; rfl
  | cons l ls ih => intro rest; simp [parseLit, ih]

theorem parseLit_cons (c : Char) (rest : List Char) : parseLit [c] (c :: rest) = some rest := by
  have := parseLit_pre [c] rest
  simpa using this

/-! ## Round trips for the serialized objects -/

theorem isDig_rbrace : isDig rbrace = false := by decide

theorem isDig_comma : isDig ',' = false := by decide

theorem headNonDig_rbrace (k : List Char) : headNonDig (rbrace :: k) = true := by
  simp [headNonDig, isDig_rbrace]

theorem headNonDig_comma (L k : List Char) : headNonDig ((',' :: L) ++ k) = true := by
  simp [headNonDig, isDig_comma]

theorem parseParamsObj_enc (p : GenParameters) (k : List Char) :
    parseParamsObj (encParamsC p k) = some (p, k) := by
  simp only [parseParamsObj, encParamsC, parseLit_pre,
    parseNatL_enc _ (headNonDig_rbrace k), parseLit_cons]

theorem wfMeta_parts {m : Metadata} (hm : wfMeta m = true) :
    wfString m.prompt = true ∧ wfString m.model_id = true ∧ wfString m.timestamp = true := by
  simp only [wfMeta, Bool.and_eq_true] at hm
  exact ⟨hm.1.1, hm.1.2, hm.2⟩

theorem parseMetaObj_enc {m : Metadata} (hm : wfMeta m = true) (k : List Char) :
    parseMetaObj (encMetaC m k) = some (m, k) := by
  obtain ⟨h1, h2, h3⟩ := wfMeta_parts hm
  simp only [parseMetaObj, encMetaC, parseLit_pre, parseStringTok_enc h1,
    parseStringTok_enc h2, parseStringTok_enc h3,
    parseNatL_enc _ (headNonDig_comma _ _), parseParamsObj_enc, parseLit_cons]

theorem wfEntry_parts {e : GalleryEntry} (he : wfEntry e = true) :
    wfString e.image = true ∧ wfMeta e.metadata = true ∧ wfString e.timestamp = true := by
  simp only [wfEntry, Bool.and_eq_true] at he
  exact ⟨he.1.1, he.1.2, he.2⟩

theorem parseEntryObj_enc {e : GalleryEntry} (he : wfEntry e = true) (k : List Char) :
    parseEntryObj (encEntryC e k) = some (e, k) := by
  obtain ⟨h1, h2, h3⟩ := wfEntry_parts he
  simp only [parseEntryObj, encEntryC, parseLit_pre, parseStringTok_enc h1,
    parseMetaObj_enc h2, parseStringTok_enc h3, parseLit_cons]

/-! ## Round trip for the whole serialized collection -/

theorem encStrC_len (s : String) (k : List Char) : k.length ≤ (encStrC s k).length := by
  simp only [encStrC, List.length_cons, List.length_append]
  omega

theorem encNatC_len (n : Nat) (k : List Char) : k.length ≤ (encNatC n k).length := by
  simp only [encNatC, List.length_append]
  omega

theorem encParamsC_len (p : GenParameters) (k : List Char) :
    k.length ≤ (encParamsC p k).length := by
  have h := encNatC_len p.num_inference_steps (rbrace :: k)
  simp only [List.length_cons] at h
  simp only [encParamsC, List.length_append, List.length_cons]
  omega

theorem encMetaC_len (m : Metadata) (k : List Char) : k.length ≤ (encMetaC m k).length := by
  have h6 := encStrC_len m.timestamp (rbrace :: k)
  have h5 := encParamsC_len m.parameters
    ((',' :: keyL "timestamp") ++ encStrC m.timestamp (rbrace :: k))
  have h4 := encNatC_len m.height
    ((',' :: keyL "parameters") ++ encParamsC m.parameters
      ((',' :: keyL "timestamp") ++ encStrC m.timestamp (rbrace :: k)))
  have h3 := encNatC_len m.width
    ((',' :: keyL "height") ++ encNatC m.height
      ((',' :: keyL "parameters") ++ encParamsC m.parameters
        ((',' :: keyL "timestamp") ++ encStrC m.timestamp (rbrace :: k))))
  have h2 := encStrC_len m.model_id
    ((',' :: keyL "width") ++ encNatC m.width
      ((',' :: keyL "height") ++ encNatC m.height
        ((',' :: keyL "parameters") ++ encParamsC m.parameters
          ((',' :: keyL "timestamp") ++ encStrC m.timestamp (rbrace :: k)))))
  have h1 := encStrC_len m.prompt
    ((',' :: keyL "model_id") ++ encStrC m.model_id
      ((',' :: keyL "width") ++ encNatC m.width
        ((',' :: keyL "height") ++ encNatC m.height
          ((',' :: keyL "parameters") ++ encParamsC m.parameters
            ((',' :: keyL "timestamp") ++ encStrC m.timestamp (rbrace :: k))))))
  simp only [List.length_append, List.length_cons] at h1 h2 h3 h4 h5 h6
  simp only [encMetaC, List.length_append, List.length_cons]
  omega

theorem encEntryC_len (e : GalleryEntry) (k : List Char) :
    k.length ≤ (encEntryC e k).length := by
  have h3 := encStrC_len e.timestamp (rbrace :: k)
  have h2 := encMetaC_len e.metadata
    ((',' :: keyL "timestamp") ++ encStrC e.timestamp (rbrace :: k))
  have h1 := encStrC_len e.image
    ((',' :: keyL "metadata") ++ encMetaC e.metadata
      ((',' :: keyL "timestamp") ++ encStrC e.timestamp (rbrace :: k)))
  simp only [List.length_append, List.length_cons] at h1 h2 h3
  simp only [encEntryC, List.length_append, List.length_cons]
  omega

theorem encTailC_len (es : List GalleryEntry) (k : List Char) :
    es.length + 1 ≤ (encTailC es k).length := by
  induction es with
  | nil => simp [encTailC]
  | cons e es ih =>
    have h := encEntryC_len e (encTailC es k)
    simp only [encTailC, List.length_cons]
    omega

theorem parseTail_enc (es : List GalleryEntry) (hwf : ∀ e ∈ es, wfEntry e = true) :
    ∀ fuel k, es.length + 1 ≤ fuel → parseTail fuel (encTailC es k) = some (es, k) := by
  induction es with
  | nil =>
    intro fuel k hf
    match fuel, hf with
    | f + 1, _ =>
      rw [encTailC, parseTail.eq_def]
      simp
  | cons e es ih =>
    intro fuel k hf
    match fuel, hf with
    | f + 1, hf =>
      rw [encTailC, parseTail.eq_def]
      have hcq : ¬(',' : Char) = ']' := by decide
      simp only [if_neg hcq, if_pos rfl]
      rw [parseEntryObj_enc (hwf e (by simp)) (encTailC es k)]
      have ht := ih (fun x hx => hwf x (by simp [hx])) f k (by simpa using hf)
      simp [ht]

theorem parseGalleryL_enc (g : List GalleryEntry) (hwf : ∀ e ∈ g, wfEntry e = true)
    (k : List Char) : parseGalleryL (encGalleryC g k) = some (g, k) := by
  cases g with
  | nil =>
    rw [encGalleryC, parseGalleryL.eq_def]
    simp
  | cons e es =>
    rw [encGalleryC, parseGalleryL.eq_def]
    have hbq : ¬lbrace = ']' := by decide
    have ht : encEntryC e (encTailC es k) =
        lbrace :: (keyL "image" ++
          encStrC e.image ((',' :: keyL "metadata") ++
            encMetaC e.metadata ((',' :: keyL "timestamp") ++
              encStrC e.timestamp (rbrace :: encTailC es k)))) := rfl
    rw [ht]
    simp only [if_pos rfl, if_neg hbq]
    rw [← ht, parseEntryObj_enc (hwf e (by simp)) (encTailC es k)]
    have htail := parseTail_enc es (fun x hx => hwf x (by simp [hx]))
      ((encTailC es k).length + 1) k (by have := encTailC_len es k; omega)
    simp [htail]

theorem parseGallery_stringify (g : List GalleryEntry) (hwf : ∀ e ∈ g, wfEntry e = true) :
    parseGallery (stringifyGallery g) = some g := by
  have h : (stringifyGallery g).data = encGalleryC g [] := rfl
  rw [parseGallery, h, parseGalleryL_enc g hwf []]

theorem stringifyGallery_ne_empty (g : List GalleryEntry) : stringifyGallery g ≠ "" := by
  intro h
  have hd := congrArg String.data h
  cases g <;> simp [stringifyGallery, encGalleryC] at hd

/-! ## Lemmas about the persisted gallery -/

theorem getItem_setItem (st : Store) (k v : String) : getItem (setItem st k v) k = some v := by
  simp [getItem, setItem]

theorem storedGallery_set (st : Store) (g : List GalleryEntry)
    (hwf : ∀ e ∈ g, wfEntry e = true) :
    storedGallery (setItem st CONFIG.STORAGE.GALLERY (stringifyGallery g)) = some g := by
  simp only [storedGallery, getItem_setItem]
  rw [if_neg (stringifyGallery_ne_empty g), parseGallery_stringify g hwf]

theorem takeBound (l : List GalleryEntry) :
    (if l.length > CONFIG.UI.MAX_GALLERY_ITEMS then l.take CONFIG.UI.MAX_GALLERY_ITEMS else l)
      = l.take CONFIG.UI.MAX_GALLERY_ITEMS := by
  by_cases h : l.length > CONFIG.UI.MAX_GALLERY_ITEMS
  · rw [if_pos h]
  · rw [if_neg h]
    exact (List.take_of_length_le (by omega)).symm

theorem saveToGalleryStorage_step (store : Store) (g : List GalleryEntry)
    (hg : storedGallery store = some g) (e : GalleryEntry) :
    App.saveToGalleryStorage store e.image e.metadata e.timestamp =
      setItem store CONFIG.STORAGE.GALLERY
        (stringifyGallery ((e :: g).take CONFIG.UI.MAX_GALLERY_ITEMS)) := by
  simp only [App.saveToGalleryStorage, hg]
  have he : ({ image := e.image, metadata := e.metadata, timestamp := e.timestamp } :
      GalleryEntry) = e := rfl
  rw [he, takeBound]

theorem storedGallery_after_save (store : Store) (g : List GalleryEntry)
    (hg : storedGallery store = some g) (e : GalleryEntry)
    (hwf : wfEntry e = true) (hwfg : ∀ x ∈ g, wfEntry x = true) :
    storedGallery (App.saveToGalleryStorage store e.image e.metadata e.timestamp) =
      some ((e :: g).take CONFIG.UI.MAX_GALLERY_ITEMS) := by
  rw [saveToGalleryStorage_step store g hg e]
  refine storedGallery_set _ _ ?_
  intro x hx
  rcases List.mem_cons.mp (List.mem_of_mem_take hx) with h | h
  · subst h; exact hwf
  · exact hwfg x h

theorem loadGallery_after_save (store : Store) (g : List GalleryEntry)
    (hg : storedGallery store = some g) (e : GalleryEntry)
    (hwf : wfEntry e = true) (hwfg : ∀ x ∈ g, wfEntry x = true) :
    App.loadGalleryFromStorage (App.saveToGalleryStorage store e.image e.metadata e.timestamp) =
      ((e :: g).take CONFIG.UI.MAX_GALLERY_ITEMS).map (fun x => (x.image, x.metadata)) := by
  rw [saveToGalleryStorage_step store g hg e]
  have hwf2 : ∀ x ∈ (e :: g).take CONFIG.UI.MAX_GALLERY_ITEMS, wfEntry x = true := by
    intro x hx
    rcases List.mem_cons.mp (List.mem_of_mem_take hx) with h | h
    · subst h; exact hwf
    · exact hwfg x h
  simp only [App.loadGalleryFromStorage, getItem_setItem]
  rw [if_neg (stringifyGallery_ne_empty _), parseGallery_stringify _ hwf2]

/-! ## The gallery window after iterated saves -/

theorem galleryWindow_closed (gen : Nat → GalleryEntry) :
    ∀ n, galleryWindow gen n = (List.range (min n 10)).map fun i => gen (n - i) := by
  intro n
  induction n with
  | zero => simp [galleryWindow]
  | succ n ih =>
    rw [galleryWindow, ih]
    simp only [CONFIG.UI.MAX_GALLERY_ITEMS]
    have h1 : (List.range (min n 10 + 1)).map (fun i => gen (n + 1 - i))
        = gen (n + 1) :: (List.range (min n 10)).map fun i => gen (n - i) := by
      rw [List.range_succ_eq_map]
      simp [List.map_map, Function.comp_def, Nat.succ_sub_succ]
    rw [← h1, ← List.map_take, List.take_range]
    congr 2
    omega

theorem galleryWindow_mem (gen : Nat → GalleryEntry) :
    ∀ n x, x ∈ galleryWindow gen n → ∃ i, 1 ≤ i ∧ i ≤ n ∧ x = gen i := by
  intro n
  induction n with
  | zero => simp [galleryWindow]
  | succ n ih =>
    intro x hx
    rw [galleryWindow] at hx
    rcases List.mem_cons.mp (List.mem_of_mem_take hx) with h | h
    · exact ⟨n + 1, by omega, le_refl _, h⟩
    · obtain ⟨i, hi1, hi2, hi3⟩ := ih x h
      exact ⟨i, hi1, by omega, hi3⟩

theorem runSaves_stored (gen : Nat → GalleryEntry) (st0 : Store)
    (h0 : getItem st0 CONFIG.STORAGE.GALLERY = none) :
    ∀ n, 1 ≤ n → (∀ i, i ≤ n → wfEntry (gen i) = true) →
      getItem (runSaves gen st0 n) CONFIG.STORAGE.GALLERY =
        some (stringifyGallery (galleryWindow gen n)) := by
  intro n hn
  induction n, hn using Nat.le_induction with
  | base =>
    intro hwf
    have hst : storedGallery st0 = some [] := by simp [storedGallery, h0]
    have hstep := saveToGalleryStorage_step st0 [] hst (gen 1)
    show getItem (App.saveToGalleryStorage (runSaves gen st0 0)
      (gen 1).image (gen 1).metadata (gen 1).timestamp) CONFIG.STORAGE.GALLERY = _
    rw [show runSaves gen st0 0 = st0 from rfl, hstep, getItem_setItem]
    rfl
  | succ n hn ih =>
    intro hwf
    have ihres := ih fun i hi => hwf i (by omega)
    have hwfwin : ∀ x ∈ galleryWindow gen n, wfEntry x = true := by
      intro x hx
      obtain ⟨i, hi1, hi2, hi3⟩ := galleryWindow_mem gen n x hx
      subst hi3
      exact hwf i (by omega)
    have hst : storedGallery (runSaves gen st0 n) = some (galleryWindow gen n) := by
      simp only [storedGallery, ihres]
      rw [if_neg (stringifyGallery_ne_empty _), parseGallery_stringify _ hwfwin]
    have hstep := saveToGalleryStorage_step (runSaves gen st0 n) (galleryWindow gen n) hst
      (gen (n + 1))
    show getItem (App.saveToGalleryStorage (runSaves gen st0 n)
      (gen (n + 1)).image (gen (n + 1)).metadata (gen (n + 1)).timestamp)
      CONFIG.STORAGE.GALLERY = _
    rw [hstep, getItem_setItem]
    rfl

/-! ## Lemmas about the controller -/

theorem string_length_eq_zero {s : String} : s.length = 0 ↔ s = "" := by
  obtain ⟨d⟩ := s
  constructor
  · intro h
    have hd : d = [] := by
      cases d with
      | nil => rfl
      | cons c t => simp [String.length] at h
    subst hd
    rfl
  · intro h
    rw [h]
    rfl

theorem getGenerationParameters_prompt (f : FormState) :
    (App.getGenerationParameters f).prompt = f.prompt := by
  simp only [App.getGenerationParameters]
  split_ifs <;> rfl

theorem getGenerationParameters_negative_eq (f : FormState) :
    (App.getGenerationParameters f).negative_prompt =
      if f.negativePrompt ≠ "" ∧ 0 < (jsTrim f.negativePrompt).length
      then some f.negativePrompt else none := by
  simp only [App.getGenerationParameters]
  split_ifs <;> rfl

theorem getGenerationParameters_seed_eq (f : FormState) :
    (App.getGenerationParameters f).seed =
      if f.seed ≠ "" ∧ 0 < (jsTrim f.seed).length
      then some (jsParseInt f.seed) else none := by
  simp only [App.getGenerationParameters]
  split_ifs <;> rfl

/-- The validation gate of `handleGenerate` passes exactly when the prompt is
nonblank after trimming. -/
theorem prompt_gate {f : FormState} (hp : jsTrim f.prompt ≠ "") :
    ¬((App.getGenerationParameters f).prompt = "" ∨
      (jsTrim (App.getGenerationParameters f).prompt).length = 0) := by
  rw [getGenerationParameters_prompt]
  push_neg
  constructor
  · intro he
    rw [he] at hp
    exact hp (by decide)
  · intro hlen
    exact hp (string_length_eq_zero.mp hlen)

theorem prompt_gate_blank {f : FormState} (hp : jsTrim f.prompt = "") :
    (App.getGenerationParameters f).prompt = "" ∨
      (jsTrim (App.getGenerationParameters f).prompt).length = 0 := by
  right
  rw [getGenerationParameters_prompt, hp]
  rfl

/-! ## The claims -/

/-- Claim C2: for every generate action whose prompt is empty or
whitespace-only, `handleGenerate` produces a local validation failure (the
error toast) and returns with the state unchanged, never invoking
`API.generateImage`. -/
theorem handleGenerate_blank_prompt_no_call (st : AppState) (f : FormState)
    (api : GenerationRequest → Except String GenerationResult) (now : String)
    (h : jsTrim f.prompt = "") :
    App.handleGenerate st f api now = (st, [Action.showError "Please enter a prompt"]) ∧
    ∀ r, Action.apiGenerate r ∉ (App.handleGenerate st f api now).2 := by
  have hgate := prompt_gate_blank h
  constructor
  · simp only [App.handleGenerate, if_pos hgate]
  · intro r
    simp only [App.handleGenerate, if_pos hgate]
    simp

theorem handleGenerate_blank_prompt_no_call_witness :
    App.handleGenerate {} formBlankPrompt apiStubErr "now" =
      ({}, [Action.showError "Please enter a prompt"]) ∧
    Action.apiGenerate reqSample ∉ (App.handleGenerate {} formBlankPrompt apiStubErr "now").2 :=
  ⟨(handleGenerate_blank_prompt_no_call {} formBlankPrompt apiStubErr "now" (by decide)).1,
   (handleGenerate_blank_prompt_no_call {} formBlankPrompt apiStubErr "now" (by decide)).2
     reqSample⟩

/-- Claim C4: when the awaited relay call throws, `handleGenerate` leaves
`currentImage` and `currentMetadata` unchanged, surfaces the thrown message
through the error toast, and never displays a new image. -/
theorem handleGenerate_failure_frame (st : AppState) (f : FormState)
    (api : GenerationRequest → Except String GenerationResult) (now : String) (msg : String)
    (hp : jsTrim f.prompt ≠ "")
    (happ : api (App.getGenerationParameters f) = .error msg) :
    (App.handleGenerate st f api now).1.currentImage = st.currentImage ∧
    (App.handleGenerate st f api now).1.currentMetadata = st.currentMetadata ∧
    Action.showError msg ∈ (App.handleGenerate st f api now).2 ∧
    ∀ i, Action.displayImage i ∉ (App.handleGenerate st f api now).2 := by
  have hgate := prompt_gate hp
  refine ⟨?_, ?_, ?_, ?_⟩ <;>
    simp [App.handleGenerate, if_neg hgate, happ]

theorem handleGenerate_failure_frame_witness :
    (App.handleGenerate stOld formValid apiStubErr "now").1.currentImage = stOld.currentImage ∧
    (App.handleGenerate stOld formValid apiStubErr "now").1.currentMetadata =
      stOld.currentMetadata ∧
    Action.showError "Generation failed: HTTP 500: Internal Server Error" ∈
      (App.handleGenerate stOld formValid apiStubErr "now").2 ∧
    Action.displayImage "fresh" ∉ (App.handleGenerate stOld formValid apiStubErr "now").2 := by
  have h := handleGenerate_failure_frame stOld formValid apiStubErr "now"
    "Generation failed: HTTP 500: Internal Server Error" (by decide) rfl
  exact ⟨h.1, h.2.1, h.2.2.1, h.2.2.2 "fresh"⟩

/-- Claim C9: blank optional inputs are omitted from the request (the
`negative_prompt` and `seed` keys are absent), and nonblank ones are passed
through, never defaulted. -/
theorem optional_fields_omitted (f : FormState) :
    (jsTrim f.negativePrompt = "" → (App.getGenerationParameters f).negative_prompt = none) ∧
    (jsTrim f.seed = "" → (App.getGenerationParameters f).seed = none) ∧
    (jsTrim f.negativePrompt ≠ "" →
      (App.getGenerationParameters f).negative_prompt = some f.negativePrompt) ∧
    (jsTrim f.seed ≠ "" → (App.getGenerationParameters f).seed = some (jsParseInt f.seed)) := by
  refine ⟨?_, ?_, ?_, ?_⟩
  · intro h
    rw [getGenerationParameters_negative_eq, if_neg]
    rintro ⟨h1, h2⟩
    rw [h] at h2
    simp at h2
  · intro h
    rw [getGenerationParameters_seed_eq, if_neg]
    rintro ⟨h1, h2⟩
    rw [h] at h2
    simp at h2
  · intro h
    rw [getGenerationParameters_negative_eq, if_pos]
    refine ⟨?_, ?_⟩
    · intro he
      rw [he] at h
      exact h (by decide)
    · rcases Nat.eq_zero_or_pos (jsTrim f.negativePrompt).length with hz | hpos
      · exact absurd (string_length_eq_zero.mp hz) h
      · exact hpos
  · intro h
    rw [getGenerationParameters_seed_eq, if_pos]
    refine ⟨?_, ?_⟩
    · intro he
      rw [he] at h
      exact h (by decide)
    · rcases Nat.eq_zero_or_pos (jsTrim f.seed).length with hz | hpos
      · exact absurd (string_length_eq_zero.mp hz) h
      · exact hpos

theorem optional_fields_omitted_witness :
    (App.getGenerationParameters formBlankPrompt).negative_prompt = none ∧
    (App.getGenerationParameters formBlankPrompt).seed = none :=
  ⟨(optional_fields_omitted formBlankPrompt).1 (by decide),
   (optional_fields_omitted formBlankPrompt).2.1 (by decide)⟩

/-- Claim C3 (counterexample): with a valid prompt, a generate click followed
by a regenerate click before the first call settles dispatches two concurrent
relay calls — the regenerate button is not disabled while a call is
outstanding, so a generate action during `Submitted` is not a no-op on that
path. -/
theorem regenerate_second_call_cex :
    (runEvents formValid sessionIdle [Event.clickGenerate, Event.clickRegenerate]).1.inFlight
      = 2 ∧
    ((runEvents formValid sessionIdle
      [Event.clickGenerate, Event.clickRegenerate]).2.countP isApiCall) = 2 := by
  decide

/-- Claim C3 (amended): a generate action via the generate button while a call
is outstanding is a no-op, because the code disables that button for the
duration; the regenerate button is not disabled, and a regenerate click with a
valid prompt while a call is outstanding starts one further relay call. -/
theorem single_flight_generate_button_only (s : Session) (f : FormState)
    (hdis : s.generateEnabled = false) (hp : jsTrim f.prompt ≠ "") :
    dispatchClick s f Event.clickGenerate = (s, []) ∧
    (dispatchClick s f Event.clickRegenerate).1.inFlight = s.inFlight + 1 ∧
    (dispatchClick s f Event.clickRegenerate).2.countP isApiCall = 1 := by
  have hgate := prompt_gate hp
  refine ⟨?_, ?_, ?_⟩
  · simp [dispatchClick, hdis]
  · simp [dispatchClick, startGenerate, if_neg hgate]
  · simp [dispatchClick, startGenerate, if_neg hgate, isApiCall]

theorem single_flight_generate_button_only_witness :
    dispatchClick sessionBusy formValid Event.clickGenerate = (sessionBusy, []) ∧
    (dispatchClick sessionBusy formValid Event.clickRegenerate).1.inFlight =
      sessionBusy.inFlight + 1 ∧
    (dispatchClick sessionBusy formValid Event.clickRegenerate).2.countP isApiCall = 1 :=
  single_flight_generate_button_only sessionBusy formValid rfl (by decide)

/-- Claim C7 (code bug): `App.init` never invokes `loadGalleryFromStorage` on
any path, so the persisted gallery collection is not loaded at start-up,
contrary to the claim. -/
theorem init_never_loads_gallery (o : Except String (List ModelDescriptor)) :
    InitStep.loadGallery ∉ App.initSteps o := by
  cases o <;> simp [App.initSteps]

/-- Claim C8 (counterexample): clicking a gallery thumbnail does not set
`App.currentImage` to the entry payload — the previous reference survives. -/
theorem gallery_select_cex :
    (galleryItemClick stOld {} [] "new" mdSample).1.currentImage ≠ some "new" ∧
    (galleryItemClick stOld {} [] "new" mdSample).1.currentImage = some "old" := by
  decide

/-- Claim C8 (amended): clicking a gallery thumbnail updates only the
displayed image and metadata; it makes no relay call, leaves the gallery
collection and its order unchanged, and leaves the whole app state — in
particular `currentImage` and `currentMetadata` — untouched. -/
theorem gallery_select_display_only (st : AppState) (view : UIView)
    (g : List (String × Metadata)) (img : String) (md : Metadata) :
    (galleryItemClick st view g img md).1 = st ∧
    (galleryItemClick st view g img md).2.1.displayedImage = some img ∧
    (galleryItemClick st view g img md).2.1.displayedMetadata = some md ∧
    (galleryItemClick st view g img md).2.2.1 = g ∧
    (galleryItemClick st view g img md).2.2.2.countP isApiCall = 0 := by
  refine ⟨rfl, rfl, rfl, rfl, ?_⟩
  simp [galleryItemClick, isApiCall]

/-- Claim C1: starting from a store with no persisted gallery, after `N`
successful generations with `N > 10` the persisted collection holds exactly
the 10 most recent entries, most-recent-first, and every entry from
generation `N - 10` or earlier is absent.  The entries are assumed
well-formed (no control characters) and pairwise distinct up to `N`. -/
theorem gallery_bound_after_generations (gen : Nat → GalleryEntry) (st0 : Store) (N : Nat)
    (h0 : getItem st0 CONFIG.STORAGE.GALLERY = none)
    (hwf : ∀ i, i < N + 1 → wfEntry (gen i) = true)
    (hinj : ∀ i, i < N + 1 → ∀ j, j < N + 1 → gen i = gen j → i = j)
    (hN : 10 < N) :
    storedGallery (runSaves gen st0 N) = some ((List.range 10).map fun i => gen (N - i)) ∧
    ((List.range 10).map fun i => gen (N - i)).length = 10 ∧
    ∀ k, 1 ≤ k → k + 10 ≤ N → gen k ∉ (List.range 10).map fun i => gen (N - i) := by
  have hwf2 : ∀ i, i ≤ N → wfEntry (gen i) = true := fun i hi => hwf i (by omega)
  have hstored := runSaves_stored gen st0 h0 N (by omega) hwf2
  have hwfwin : ∀ x ∈ galleryWindow gen N, wfEntry x = true := by
    intro x hx
    obtain ⟨i, hi1, hi2, hi3⟩ := galleryWindow_mem gen N x hx
    subst hi3
    exact hwf2 i hi2
  have hsg : storedGallery (runSaves gen st0 N) = some (galleryWindow gen N) := by
    simp only [storedGallery, hstored]
    rw [if_neg (stringifyGallery_ne_empty _), parseGallery_stringify _ hwfwin]
  have hclosed : galleryWindow gen N = (List.range 10).map fun i => gen (N - i) := by
    rw [galleryWindow_closed]
    congr 2
    omega
  refine ⟨by rw [hsg, hclosed], by simp, ?_⟩
  intro k hk1 hk2 hmem
  simp only [List.mem_map, List.mem_range] at hmem
  obtain ⟨i, hi, he⟩ := hmem
  have heq := hinj (N - i) (by omega) k (by omega) he
  omega

set_option maxRecDepth 8000 in
theorem gallery_bound_after_generations_witness :
    storedGallery (runSaves genSample [] 11) =
      some ((List.range 10).map fun i => genSample (11 - i)) ∧
    genSample 1 ∉ ((List.range 10).map fun i => genSample (11 - i)) :=
  ⟨(gallery_bound_after_generations genSample [] 11 rfl (by decide) (by decide) (by decide)).1,
   (gallery_bound_after_generations genSample [] 11 rfl (by decide) (by decide) (by decide)).2.2
     1 (by decide) (by decide)⟩

/-- Claim C5: the Relay Service rejects a request whose steps value lies
outside `[4, 50]` with a `ValidationError` and performs no upstream call;
validation runs before the single upstream call.  The relay backend is not
among the frontend sources, so `relayValidate` and `relayGenerate` are
modelled from the specification. -/
theorem relay_rejects_out_of_range_steps (cfg : RelayConfig) (r : GenerationRequest)
    (upstream : Except RelayError GenerationResult)
    (hsteps : r.num_inference_steps < 4 ∨ 50 < r.num_inference_steps) :
    relayGenerate cfg r upstream = (.error RelayError.ValidationError, []) := by
  have hv : relayValidate cfg r = some RelayError.ValidationError := by
    simp only [relayValidate]
    split_ifs <;> rfl
  simp [relayGenerate, hv]

theorem relay_rejects_out_of_range_steps_witness :
    relayGenerate cfgSample reqSteps100 (.error RelayError.UpstreamError) =
      (.error RelayError.ValidationError, []) :=
  relay_rejects_out_of_range_steps cfgSample reqSteps100 (.error RelayError.UpstreamError)
    (by decide)

/-- Claim C6: serialization then parsing is the identity on every well-formed
gallery collection, and after a save the stored collection parses back to
exactly the persisted ordered sequence — image payload, metadata and
timestamp — which `loadGalleryFromStorage` surfaces in the same order. -/
theorem gallery_persist_reload_roundtrip (store : Store) (g : List GalleryEntry)
    (e : GalleryEntry) (hg : storedGallery store = some g)
    (hwf : wfEntry e = true) (hwfg : ∀ x ∈ g, wfEntry x = true) :
    parseGallery (stringifyGallery g) = some g ∧
    storedGallery (App.saveToGalleryStorage store e.image e.metadata e.timestamp) =
      some ((e :: g).take CONFIG.UI.MAX_GALLERY_ITEMS) ∧
    App.loadGalleryFromStorage (App.saveToGalleryStorage store e.image e.metadata e.timestamp) =
      ((e :: g).take CONFIG.UI.MAX_GALLERY_ITEMS).map fun x => (x.image, x.metadata) :=
  ⟨parseGallery_stringify g hwfg,
   storedGallery_after_save store g hg e hwf hwfg,
   loadGallery_after_save store g hg e hwf hwfg⟩

set_option maxRecDepth 8000 in
theorem gallery_persist_reload_roundtrip_witness :
    parseGallery (stringifyGallery []) = some [] ∧
    storedGallery (App.saveToGalleryStorage []
      entrySample.image entrySample.metadata entrySample.timestamp) =
      some (([entrySample]).take CONFIG.UI.MAX_GALLERY_ITEMS) ∧
    App.loadGalleryFromStorage (App.saveToGalleryStorage []
      entrySample.image entrySample.metadata entrySample.timestamp) =
      (([entrySample]).take CONFIG.UI.MAX_GALLERY_ITEMS).map fun x => (x.image, x.metadata) :=
  gallery_persist_reload_roundtrip [] [] entrySample (by decide) (by decide) (by decide)

/-- Claim C10: each API-module operation either returns a payload drawn from a
delivered `success` response (`checkHealth` returns the raw parsed body) or
fails; every failure — network error, non-OK status, parse failure, or a body
with `success` false — surfaces as an error whose message wraps the
underlying cause with the fixed per-operation text. -/
theorem api_error_handling_total :
    (∀ o v, API.fetchModels o = .ok v →
      httpSuccess o fun b => b.success = true ∧ v = b.models) ∧
    (∀ o m, API.fetchModels o = .error m → wrapsMsg "Failed to load models: " m) ∧
    (∀ o v, API.generateImage o = .ok v → httpSuccess o fun b => b.success = true ∧ v = b) ∧
    (∀ o m, API.generateImage o = .error m → wrapsMsg "Generation failed: " m) ∧
    (∀ o v, API.checkHealth o = .ok v → httpSuccess o fun b => v = b) ∧
    (∀ o m, API.checkHealth o = .error m → wrapsMsg "API unavailable: " m) := by
  refine ⟨?_, ?_, ?_, ?_, ?_, ?_⟩
  · intro o v h
    match o with
    | .netError m => simp [API.fetchModels] at h
    | .response ok status statusText body =>
      cases ok
      · simp [API.fetchModels] at h
      · cases body with
        | error m => simp [API.fetchModels] at h
        | ok data =>
          by_cases hs : data.success
          · refine ⟨status, statusText, data, rfl, hs, ?_⟩
            simp [API.fetchModels, hs] at h
            exact h.symm
          · simp [API.fetchModels, hs] at h
  · intro o m h
    match o with
    | .netError m2 =>
      simp [API.fetchModels] at h
      exact ⟨m2, h.symm⟩
    | .response ok status statusText body =>
      cases ok
      · simp [API.fetchModels] at h
        exact ⟨httpThrowMsg status statusText, h.symm⟩
      · cases body with
        | error m2 =>
          simp [API.fetchModels] at h
          exact ⟨m2, h.symm⟩
        | ok data =>
          by_cases hs : data.success
          · simp [API.fetchModels, hs] at h
          · simp [API.fetchModels, hs] at h
            exact ⟨jsOr data.error "Failed to fetch models", h.symm⟩
  · intro o v h
    match o with
    | .netError m => simp [API.generateImage] at h
    | .response ok status statusText body =>
      cases ok
      · simp [API.generateImage] at h
      · cases body with
        | error m => simp [API.generateImage] at h
        | ok data =>
          by_cases hs : data.success
          · refine ⟨status, statusText, data, rfl, hs, ?_⟩
            simp [API.generateImage, hs] at h
            exact h.symm
          · simp [API.generateImage, hs] at h
  · intro o m h
    match o with
    | .netError m2 =>
      simp [API.generateImage] at h
      exact ⟨m2, h.symm⟩
    | .response ok status statusText body =>
      cases ok
      · simp [API.generateImage] at h
        exact ⟨httpThrowMsg status statusText, h.symm⟩
      · cases body with
        | error m2 =>
          simp [API.generateImage] at h
          exact ⟨m2, h.symm⟩
        | ok data =>
          by_cases hs : data.success
          · simp [API.generateImage, hs] at h
          · simp [API.generateImage, hs] at h
            exact ⟨jsOr data.error "Image generation failed", h.symm⟩
  · intro o v h
    match o with
    | .netError m => simp [API.checkHealth] at h
    | .response ok status statusText body =>
      cases ok
      · simp [API.checkHealth] at h
      · cases body with
        | error m => simp [API.checkHealth] at h
        | ok data =>
          refine ⟨status, statusText, data, rfl, ?_⟩
          simp [API.checkHealth] at h
          exact h.symm
  · intro o m h
    match o with
    | .netError m2 =>
      simp [API.checkHealth] at h
      exact ⟨m2, h.symm⟩
    | .response ok status statusText body =>
      cases ok
      · simp [API.checkHealth] at h
        exact ⟨httpThrowMsg status statusText, h.symm⟩
      · cases body with
        | error m2 =>
          simp [API.checkHealth] at h
          exact ⟨m2, h.symm⟩
        | ok data => simp [API.checkHealth] at h

theorem api_error_handling_total_witness :
    httpSuccess oModelsOk (fun b => b.success = true ∧ ([] : List ModelDescriptor) = b.models) ∧
    wrapsMsg "Failed to load models: " "Failed to load models: boom" :=
  ⟨api_error_handling_total.1 oModelsOk [] (by simp [API.fetchModels, oModelsOk, modelsBodyOk]),
   api_error_handling_total.2.1 (.netError "boom") "Failed to load models: boom"
     (by simp [API.fetchModels])⟩

end ImageGen
